import Mathlib

/-!
Verification development for `bisect_perf.py`, a git-bisect driver for a
performance regression. External processes (git, cmake builds, the perf
probe) are modelled by an `Outcome` describing how each spawned command
behaves: a normal exit (return code plus captured combined output) or an
unexpected runtime fault (any exception other than the non-zero-exit error,
e.g. an I/O error while opening the transcript). Python exceptions are
modelled with `Except`; measured latencies are modelled as rationals parsed
from the decimal text the probe prints. Console echo, transcript files and
log formatting are side effects outside the data flow and are dropped.
-/

set_option autoImplicit false
set_option linter.unusedVariables false

namespace BisectPerf

deriving instance DecidableEq for Except

/-- Behaviour of one spawned external command: it either runs to completion
with a return code and its captured combined stdout/stderr text, or some
unexpected runtime fault occurs around the invocation. -/
inductive Outcome where
  | exit (returncode : Int) (output : String)
  | fault (msg : String)
  deriving Repr, DecidableEq

/-- Python exceptions relevant to this script: `subprocess.CalledProcessError`
(raised by `run_command` on a non-zero return code, carrying the code, the
command and the captured output) and any other exception. -/
inductive Exn where
  | calledProcessError (returncode : Int) (cmd : String) (output : String)
  | other (msg : String)
  deriving Repr, DecidableEq

/-- `run_command(cmd, ...)`: runs the command and returns the captured output;
raises `CalledProcessError` when the return code is non-zero. An unexpected
fault around the invocation propagates as `Exn.other`. Logging and console
echo are side effects, dropped here. -/
def run_command (cmd : String) (o : Outcome) : Except Exn String :=
  match o with
  | .fault m => .error (.other m)
  | .exit rc out =>
      if rc ≠ 0 then .error (.calledProcessError rc cmd out) else .ok out

/-- Substring containment, modelling Python's `needle in haystack`. -/
def inStr (needle : List Char) : List Char → Bool
  | [] => needle.isEmpty
  | c :: rest => needle.isPrefixOf (c :: rest) || inStr needle rest

/-- `output.split('\n')`, Python semantics: `"".split('\n') = ['']` and a
trailing separator yields a trailing empty field. -/
def splitOnNl : List Char → List (List Char)
  | [] => [[]]
  | c :: rest =>
      if c = '\n' then [] :: splitOnNl rest
      else
        match splitOnNl rest with
        | [] => [[c]]
        | l :: ls => (c :: l) :: ls

/-- Python's `str.strip()`: remove leading and trailing whitespace. -/
def pyStrip (s : String) : String :=
  ⟨((s.toList.dropWhile Char.isWhitespace).reverse.dropWhile
      Char.isWhitespace).reverse⟩

/-- Numeric value of a digit string, most significant first. -/
def natOfDigits (ds : List Char) : Nat :=
  ds.foldl (fun acc c => 10 * acc + (c.toNat - '0'.toNat)) 0

/-- `float("<ds1>.<ds2>")` for the digit groups captured by the probe's
pattern, as the exact rational `ds1 + ds2 / 10 ^ |ds2|`, written over a
common denominator so it evaluates in the kernel. -/
def groupsToRat (ds1 ds2 : List Char) : ℚ :=
  Rat.divInt (natOfDigits ds1 * 10 ^ ds2.length + natOfDigits ds2)
    (10 ^ ds2.length)

/-- The literal head of the probe's pattern `renderBlobsToTexture: (\d+\.\d+)s`. -/
def renderPatternLiteral : List Char := "renderBlobsToTexture: ".toList

/-- Attempt to match `renderBlobsToTexture: (\d+\.\d+)s` at the start of `s`,
returning the two digit groups of the capture. Each `\d+` is greedy, and
since the character required right after it (`.` resp. `s`) is not a digit,
maximal munch coincides with the regex's backtracking semantics. -/
def matchRenderAt (s : List Char) : Option (List Char × List Char) :=
  match renderPatternLiteral.isPrefixOf s with
  | false => none
  | true =>
      let rest := s.drop renderPatternLiteral.length
      let ds1 := rest.takeWhile Char.isDigit
      let r1 := rest.dropWhile Char.isDigit
      if ds1.isEmpty then none
      else
        match r1 with
        | '.' :: r2 =>
            let ds2 := r2.takeWhile Char.isDigit
            let r3 := r2.dropWhile Char.isDigit
            if ds2.isEmpty then none
            else
              match r3 with
              | 's' :: _ => some (ds1, ds2)
              | _ => none
        | _ => none

/-- `re.search(r'renderBlobsToTexture: (\d+\.\d+)s', line)`: try the pattern
at each position left to right, returning the first match's groups. -/
def reSearchRender : List Char → Option (List Char × List Char)
  | [] => none
  | c :: rest =>
      match matchRenderAt (c :: rest) with
      | some g => some g
      | none => reSearchRender rest

/-- Body of the probe's line loop: a line yields a value when it contains the
marker token and the pattern matches somewhere in it. -/
def lineValue (line : List Char) : Option ℚ :=
  if inStr "renderBlobsToTexture".toList line then
    match reSearchRender line with
    | some (ds1, ds2) => some (groupsToRat ds1 ds2)
    | none => none
  else none

/-- The probe's `for line in output.split('\n')` loop: value of the first
line that yields one. -/
def findRenderTime : List (List Char) → Option ℚ
  | [] => none
  | line :: rest =>
      match lineValue line with
      | some v => some v
      | none => findRenderTime rest

/-- `run_perf_test(commit_hash)`: runs the measurement program; on
`CalledProcessError` returns `None`; otherwise scans the output for the
first `renderBlobsToTexture: (\d+\.\d+)s` match and returns its value, or
`None` when no line matches. Any other fault propagates. -/
def run_perf_test (commit_hash : String) (perfCmd : Outcome) :
    Except Exn (Option ℚ) :=
  match run_command "python3 .\\main.py" perfCmd with
  | .error (.calledProcessError _ _ _) => .ok none
  | .error e => .error e
  | .ok output => .ok (findRenderTime (splitOnNl output.toList))

/-- Outcomes of the two commands `checkout_commit` spawns. -/
structure CheckoutEnv where
  gitCheckout : Outcome
  submoduleUpdate : Outcome
  deriving Repr, DecidableEq

/-- `checkout_commit(commit_hash, repo_path)`: runs `git checkout` then the
recursive submodule update; returns `True` when both succeed, `False` when
either raises `CalledProcessError`. Any other exception propagates. -/
def checkout_commit (commit_hash : String) (env : CheckoutEnv) :
    Except Exn Bool :=
  match run_command ("git checkout " ++ commit_hash) env.gitCheckout with
  | .error (.calledProcessError _ _ _) => .ok false
  | .error e => .error e
  | .ok _ =>
      match run_command "git submodule update --init --recursive"
          env.submoduleUpdate with
      | .error (.calledProcessError _ _ _) => .ok false
      | .error e => .error e
      | .ok _ => .ok true

/-- `build_slang(commit_hash)`: runs the Slang build command; returns `True`
on success and also `True` when the build fails with `CalledProcessError`
(the failure is swallowed). Any other exception propagates. -/
def build_slang (commit_hash : String) (buildCmd : Outcome) :
    Except Exn Bool :=
  match run_command "cmake --build build --config Release -j12" buildCmd with
  | .error (.calledProcessError _ _ _) => .ok true
  | .error e => .error e
  | .ok _ => .ok true

/-- `build_sgl(commit_hash)`: runs the SGL build command; returns `True` on
success and `False` when the build fails with `CalledProcessError`. Any
other exception propagates. -/
def build_sgl (commit_hash : String) (buildCmd : Outcome) :
    Except Exn Bool :=
  match run_command
      "cmake --build .\\build\\windows-vs2022 --config Release -j10 "
      buildCmd with
  | .error (.calledProcessError _ _ _) => .ok false
  | .error e => .error e
  | .ok _ => .ok true

/-- The `results` dictionary built by `evaluate_commit`: the candidate, one
success flag per stage, and the measured render time when the probe got one. -/
structure EvaluationResult where
  commit : String
  checkout_success : Bool
  slang_build_success : Bool
  sgl_build_success : Bool
  perf_test_success : Bool
  render_time : Option ℚ
  deriving Repr, DecidableEq

/-- The initial `results` dictionary of `evaluate_commit`. -/
def initialResults (commit_hash : String) : EvaluationResult :=
  { commit := commit_hash
    checkout_success := false
    slang_build_success := false
    sgl_build_success := false
    perf_test_success := false
    render_time := none }

/-- Outcomes of the five external commands the evaluation pipeline can spawn. -/
structure EvalEnv where
  checkout : CheckoutEnv
  slangBuild : Outcome
  sglBuild : Outcome
  perfTest : Outcome
  deriving Repr, DecidableEq

/-- The `try` block of `evaluate_commit`: the sequential pipeline, updating
`results` after each stage. An escaping exception carries the `results`
built so far, mirroring the in-place mutation the handler observes. -/
def evaluate_commit_body (commit_hash : String) (env : EvalEnv) :
    Except (Exn × EvaluationResult) (Option Bool × EvaluationResult) :=
  let results := initialResults commit_hash
  match checkout_commit commit_hash env.checkout with
  | .error e => .error (e, results)
  | .ok co =>
      let results := { results with checkout_success := co }
      if !co then .ok (none, results)
      else
        match build_slang commit_hash env.slangBuild with
        | .error e => .error (e, results)
        | .ok sb =>
            let results := { results with slang_build_success := sb }
            if !sb then .ok (none, results)
            else
              match build_sgl commit_hash env.sglBuild with
              | .error e => .error (e, results)
              | .ok gb =>
                  let results := { results with sgl_build_success := gb }
                  if !gb then .ok (none, results)
                  else
                    match run_perf_test commit_hash env.perfTest with
                    | .error e => .error (e, results)
                    | .ok render_time =>
                        let results :=
                          { results with
                            perf_test_success := render_time.isSome
                            render_time := render_time }
                        match render_time with
                        | none => .ok (none, results)
                        | some t => .ok (some (decide (t < 1)), results)

/-- `evaluate_commit(commit_hash)`: runs the pipeline and catches every
exception at this boundary, returning `None` (Inconclusive) with the
`results` built so far. -/
def evaluate_commit (commit_hash : String) (env : EvalEnv) :
    Option Bool × EvaluationResult :=
  match evaluate_commit_body commit_hash env with
  | .ok r => r
  | .error (_, results) => (none, results)

/-- How the algorithm marks a candidate: `git bisect skip/good/bad`. -/
inductive Report where
  | skip
  | good
  | bad
  deriving Repr, DecidableEq

/-- How one iteration of the bisect loop ends: go round again, break out on
the completion marker, or an exception escapes the loop body. -/
inductive StepExit where
  | continued
  | finished
  | faulted (e : Exn)
  deriving Repr, DecidableEq

/-- Outcomes of the external commands one loop iteration can spawn. -/
structure IterEnv where
  revParse : Outcome
  evalEnv : EvalEnv
  skipCmd : Outcome
  goodCmd : Outcome
  badCmd : Outcome
  deriving Repr, DecidableEq

/-- The completion marker looked for in `git bisect good/bad` output. -/
def bisectDoneMarker : List Char := "is the first bad commit".toList

/-- One iteration of the `while True` loop in `main`: read the current
commit, evaluate it (its result is appended to the history before any
report), then report skip/good/bad; after a good/bad report only, test the
response for the completion marker. Returns how the iteration ended, the
report made (if any), and the evaluation result appended (if any). -/
def bisect_iteration (env : IterEnv) :
    StepExit × Option Report × Option EvaluationResult :=
  match run_command "git rev-parse HEAD" env.revParse with
  | .error e => (.faulted e, none, none)
  | .ok cur =>
      let current_commit := pyStrip cur
      let (is_good, eval_results) := evaluate_commit current_commit env.evalEnv
      match is_good with
      | none =>
          match run_command "git bisect skip" env.skipCmd with
          | .error e => (.faulted e, none, some eval_results)
          | .ok _ => (.continued, some .skip, some eval_results)
      | some g =>
          let cmd := if g then "git bisect good" else "git bisect bad"
          let o := if g then env.goodCmd else env.badCmd
          match run_command cmd o with
          | .error e => (.faulted e, none, some eval_results)
          | .ok output =>
              if inStr bisectDoneMarker output.toList then
                (.finished, some (if g then .good else .bad), some eval_results)
              else
                (.continued, some (if g then .good else .bad), some eval_results)

/-- How the `try` block of `main`'s loop ends: the completion marker broke
the loop, an exception was caught by the outer handler, or the supplied
window of iteration behaviours ran out (the observation is finite; the real
loop would keep iterating). -/
inductive LoopExit where
  | completed
  | caught (e : Exn)
  | windowExhausted
  deriving Repr, DecidableEq

/-- The `while True` loop of `main`, iterated over a finite window of
per-iteration external behaviours, accumulating the run history. -/
def bisect_loop : List IterEnv → List EvaluationResult →
    LoopExit × List EvaluationResult
  | [], acc => (.windowExhausted, acc)
  | env :: rest, acc =>
      match bisect_iteration env with
      | (.faulted e, _, r) => (.caught e, acc ++ r.toList)
      | (.finished, _, r) => (.completed, acc ++ r.toList)
      | (.continued, _, r) => bisect_loop rest (acc ++ r.toList)

/-- Observable finalize actions of `main`'s `finally` block. -/
inductive FinalizeEvent where
  | resetAttempted
  | summaryEmitted (entries : Nat)
  deriving Repr, DecidableEq

/-- The `finally` block of `main`: always run `git bisect reset`, then log
the summary and write the summary file (one entry per history element).
If the reset command itself raises, the summary is skipped and the
exception escapes `main`. -/
def finalize (resetCmd : Outcome) (results : List EvaluationResult) :
    List FinalizeEvent × Option Exn :=
  match run_command "git bisect reset" resetCmd with
  | .error e => ([.resetAttempted], some e)
  | .ok _ => ([.resetAttempted, .summaryEmitted results.length], none)

/-- The `try/finally` of `main` after the bisect session is started: run the
loop, then finalize unconditionally. Returns how the loop ended, the run
history, the finalize events, and an exception escaping `main` (if any). -/
def bisect_run (iters : List IterEnv) (resetCmd : Outcome) :
    LoopExit × List EvaluationResult × List FinalizeEvent × Option Exn :=
  match bisect_loop iters [] with
  | (ex, results) =>
      match finalize resetCmd results with
      | (events, escExn) => (ex, results, events, escExn)

/-! Helper lemmas about the probe output scan. -/

/-- When no line of the output yields a value, the scan returns nothing. -/
theorem findRenderTime_eq_none (ls : List (List Char))
    (h : ∀ l ∈ ls, lineValue l = none) : findRenderTime ls = none := by
  induction ls with
  | nil => rfl
  | cons line rest ih =>
      have hl := h line (List.mem_cons_self line rest)
      simp [findRenderTime, hl]
      exact ih fun l hm => h l (List.mem_cons_of_mem line hm)

/-- The scan returns the value of the first line that yields one. -/
theorem findRenderTime_first (pre : List (List Char)) (line : List Char)
    (post : List (List Char)) (v : ℚ)
    (hpre : ∀ l ∈ pre, lineValue l = none) (hl : lineValue line = some v) :
    findRenderTime (pre ++ line :: post) = some v := by
  induction pre with
  | nil => simp [findRenderTime, hl]
  | cons p rest ih =>
      have hp := hpre p (List.mem_cons_self p rest)
      simp [findRenderTime, hp]
      exact ih fun l hm => hpre l (List.mem_cons_of_mem p hm)

/-! The claims. -/

/-- C1: when the underlying build command exits non-zero, `build_slang`
still returns success (`true`) while `build_sgl` returns failure (`false`);
consequently, whenever the pipeline got past checkout, the primary-build
flag is set, so a primary build failure never produces the
Inconclusive-at-primary-build early return of `evaluate_commit`. -/
theorem claim_C1 (c : String) (rc : Int) (out : String) (env : EvalEnv)
    (hrc : rc ≠ 0) (henv : env.slangBuild = .exit rc out) :
    build_slang c (.exit rc out) = .ok true ∧
      build_sgl c (.exit rc out) = .ok false ∧
      ((evaluate_commit c env).2.checkout_success = true →
        (evaluate_commit c env).2.slang_build_success = true) := by
  refine ⟨by simp [build_slang, run_command, hrc],
    by simp [build_sgl, run_command, hrc], ?_⟩
  unfold evaluate_commit evaluate_commit_body
  split <;> rename_i heq <;> (repeat' split at heq) <;>
    (try cases heq) <;> simp_all [initialResults, build_slang, run_command]

theorem claim_C1_witness :
    build_slang "c0" (.exit 1 "err") = .ok true ∧
      build_sgl "c0" (.exit 1 "err") = .ok false ∧
      (evaluate_commit "c0"
          ⟨⟨.exit 0 "", .exit 0 ""⟩, .exit 1 "err", .exit 0 "",
            .exit 0 "renderBlobsToTexture: 0.5s"⟩).2.slang_build_success
        = true := by
  have h := claim_C1 "c0" 1 "err"
    ⟨⟨.exit 0 "", .exit 0 ""⟩, .exit 1 "err", .exit 0 "",
      .exit 0 "renderBlobsToTexture: 0.5s"⟩ (by decide) rfl
  exact ⟨h.1, h.2.1, h.2.2 (by decide)⟩

/-- C2: any exception escaping a stage of the pipeline is caught at the
`evaluate_commit` boundary: the caller gets the Inconclusive verdict
(`none`) with the results built so far, in which the probe stage was never
reached (flag false, latency absent); moreover each stage flag can only be
set if every earlier stage flag is set, so stages past the fault stay
false. -/
theorem claim_C2 (c : String) (env : EvalEnv) :
    (∀ e, evaluate_commit_body c env = .error e →
        evaluate_commit c env = (none, e.2) ∧
          e.2.perf_test_success = false ∧ e.2.render_time = none) ∧
      ((evaluate_commit c env).2.slang_build_success = true →
          (evaluate_commit c env).2.checkout_success = true) ∧
      ((evaluate_commit c env).2.sgl_build_success = true →
          (evaluate_commit c env).2.slang_build_success = true) ∧
      ((evaluate_commit c env).2.perf_test_success = true →
          (evaluate_commit c env).2.sgl_build_success = true) := by
  refine ⟨?_, ?_⟩
  · intro e he
    unfold evaluate_commit_body at he
    (repeat' split at he) <;> (try cases he) <;>
      simp_all [evaluate_commit, evaluate_commit_body, initialResults]
  · unfold evaluate_commit evaluate_commit_body
    split <;> rename_i heq <;> (repeat' split at heq) <;>
      (try cases heq) <;> simp_all [initialResults]

theorem claim_C2_witness :
    evaluate_commit "c0"
        ⟨⟨.exit 0 "", .exit 0 ""⟩, .exit 0 "", .fault "oops", .exit 0 ""⟩
      = (none, ⟨"c0", true, true, false, false, none⟩) ∧
      (⟨"c0", true, true, false, false, none⟩ :
        EvaluationResult).perf_test_success = false := by
  have h := (claim_C2 "c0"
      ⟨⟨.exit 0 "", .exit 0 ""⟩, .exit 0 "", .fault "oops", .exit 0 ""⟩).1
    (.other "oops", ⟨"c0", true, true, false, false, none⟩) (by decide)
  exact ⟨h.1, h.2.1⟩

/-- C3: when the measured latency is known, the verdict is Good (`true`)
exactly when the latency is below `1.0` and Bad (`false`) otherwise; in
particular a latency of exactly `1.0` is classified Bad. -/
theorem claim_C3 (c : String) (env : EvalEnv) (t : ℚ)
    (h : (evaluate_commit c env).2.render_time = some t) :
    (evaluate_commit c env).1 = some (decide (t < 1)) ∧
      (t = 1 → (evaluate_commit c env).1 = some false) := by
  unfold evaluate_commit evaluate_commit_body at *
  split at h <;> rename_i heq <;> (repeat' split at heq) <;>
    (try cases heq) <;> simp_all [initialResults]

theorem claim_C3_witness :
    (evaluate_commit "c0"
        ⟨⟨.exit 0 "", .exit 0 ""⟩, .exit 0 "", .exit 0 "",
          .exit 0 "renderBlobsToTexture: 1.0s"⟩).1 = some false :=
  (claim_C3 "c0"
    ⟨⟨.exit 0 "", .exit 0 ""⟩, .exit 0 "", .exit 0 "",
      .exit 0 "renderBlobsToTexture: 1.0s"⟩ 1 (by decide)).2 rfl

/-- C4: on every path through `evaluate_commit`, the fault path included,
the latency field is present exactly when the probe-success flag is set. -/
theorem claim_C4 (c : String) (env : EvalEnv) :
    ((evaluate_commit c env).2.render_time).isSome
      = (evaluate_commit c env).2.perf_test_success := by
  unfold evaluate_commit evaluate_commit_body
  split <;> rename_i heq <;> (repeat' split at heq) <;>
    (try cases heq) <;> simp_all [initialResults]

/-- C5: in one iteration of the bisect loop, an Inconclusive verdict is
reported as `git bisect skip` and the loop continues regardless of that
command response (the completion marker is not inspected there); a Good
verdict is reported as `git bisect good` and a Bad verdict as
`git bisect bad`, and only for these is the response inspected for the
completion marker, which terminates the iteration exactly when present. -/
theorem claim_C5 (env : IterEnv) (s : String)
    (h : env.revParse = .exit 0 s) :
    ((evaluate_commit (pyStrip s) env.evalEnv).1 = none →
        ∀ out, env.skipCmd = .exit 0 out →
          bisect_iteration env =
            (.continued, some .skip,
              some (evaluate_commit (pyStrip s) env.evalEnv).2)) ∧
      ((evaluate_commit (pyStrip s) env.evalEnv).1 = some true →
          ∀ out, env.goodCmd = .exit 0 out →
            bisect_iteration env =
              ((if inStr bisectDoneMarker out.toList then .finished
                else .continued),
                some .good,
                some (evaluate_commit (pyStrip s) env.evalEnv).2)) ∧
      ((evaluate_commit (pyStrip s) env.evalEnv).1 = some false →
          ∀ out, env.badCmd = .exit 0 out →
            bisect_iteration env =
              ((if inStr bisectDoneMarker out.toList then .finished
                else .continued),
                some .bad,
                some (evaluate_commit (pyStrip s) env.evalEnv).2)) := by
  refine ⟨?_, ?_, ?_⟩ <;> intro hv out hcmd <;>
    simp [bisect_iteration, run_command, h, hv, hcmd] <;>
    split <;> simp

theorem claim_C5_witness :
    bisect_iteration
        ⟨.exit 0 "abc\n",
          ⟨⟨.exit 1 "x", .exit 0 ""⟩, .exit 0 "", .exit 0 "", .exit 0 ""⟩,
          .exit 0 "zzz is the first bad commit", .exit 0 "", .exit 0 ""⟩ =
      (.continued, some .skip,
        some ⟨"abc", false, false, false, false, none⟩) := by
  have h := (claim_C5
      ⟨.exit 0 "abc\n",
        ⟨⟨.exit 1 "x", .exit 0 ""⟩, .exit 0 "", .exit 0 "", .exit 0 ""⟩,
        .exit 0 "zzz is the first bad commit", .exit 0 "", .exit 0 ""⟩
      "abc\n" rfl).1 (by decide) "zzz is the first bad commit" rfl
  rw [h]
  decide

/-- C6: after the bisect session is started, the reset of the finalize step
runs exactly once per invocation whatever way the loop ends (completion
marker seen, a fault caught by the outer handler, or the observation window
running out), and when the reset command succeeds the summary over the full
run history is emitted exactly once as well. -/
theorem claim_C6 (iters : List IterEnv) (resetCmd : Outcome) :
    ((bisect_run iters resetCmd).2.2.1.count .resetAttempted = 1) ∧
      (∀ out, resetCmd = .exit 0 out →
        (bisect_run iters resetCmd).2.2.1 =
          [.resetAttempted,
            .summaryEmitted (bisect_run iters resetCmd).2.1.length]) := by
  constructor
  · unfold bisect_run
    cases hl : bisect_loop iters [] with
    | mk ex results =>
        unfold finalize
        cases hr : run_command "git bisect reset" resetCmd <;>
          simp [List.count]
  · intro out hout
    subst hout
    unfold bisect_run
    cases hl : bisect_loop iters [] with
    | mk ex results => simp [finalize, run_command]

theorem claim_C6_witness :
    (bisect_run
        [⟨.exit 0 "abc",
          ⟨⟨.exit 1 "x", .exit 0 ""⟩, .exit 0 "", .exit 0 "", .exit 0 ""⟩,
          .fault "boom", .exit 0 "", .exit 0 ""⟩]
        (.exit 0 "")).2.2.1.count .resetAttempted = 1 ∧
      (bisect_run
        [⟨.exit 0 "abc",
          ⟨⟨.exit 1 "x", .exit 0 ""⟩, .exit 0 "", .exit 0 "", .exit 0 ""⟩,
          .fault "boom", .exit 0 "", .exit 0 ""⟩]
        (.exit 0 "")).2.2.1 = [.resetAttempted, .summaryEmitted 1] := by
  have h := claim_C6
    [⟨.exit 0 "abc",
      ⟨⟨.exit 1 "x", .exit 0 ""⟩, .exit 0 "", .exit 0 "", .exit 0 ""⟩,
      .fault "boom", .exit 0 "", .exit 0 ""⟩]
    (.exit 0 "")
  exact ⟨h.1, (h.2 "" rfl).trans (by decide)⟩

/-- C7: `run_perf_test` returns `none` rather than raising when the
measurement process exits non-zero, and likewise when no output line yields
a match; when some line matches, it returns the value extracted from the
first line that does. -/
theorem claim_C7 (c : String) (rc : Int) (out : String) :
    (rc ≠ 0 → run_perf_test c (.exit rc out) = .ok none) ∧
      ((∀ l ∈ splitOnNl out.toList, lineValue l = none) →
        run_perf_test c (.exit 0 out) = .ok none) ∧
      (∀ pre line post v, splitOnNl out.toList = pre ++ line :: post →
        (∀ l ∈ pre, lineValue l = none) → lineValue line = some v →
        run_perf_test c (.exit 0 out) = .ok (some v)) := by
  refine ⟨fun h => by simp [run_perf_test, run_command, h], ?_, ?_⟩
  · intro h
    have hn := findRenderTime_eq_none (splitOnNl out.toList) h
    simp [run_perf_test, run_command]
    exact hn
  · intro pre line post v hsplit hpre hl
    have hv := findRenderTime_first pre line post v hpre hl
    simp [run_perf_test, run_command]
    rw [show out.data = out.toList from rfl, hsplit]
    exact hv

theorem claim_C7_witness :
    run_perf_test "c0" (.exit 0 "noise\nrenderBlobsToTexture: 0.5s\n") =
      .ok (some (Rat.divInt 1 2)) :=
  (claim_C7 "c0" 0 "noise\nrenderBlobsToTexture: 0.5s\n").2.2
    ["noise".toList] "renderBlobsToTexture: 0.5s".toList [[]]
    (Rat.divInt 1 2) (by decide) (by decide) (by decide)

/-- C8 as stated is false: `checkout_commit` converts only command failures
(`CalledProcessError`) to a boolean, while an unexpected fault around the
working-tree switch propagates past its boundary instead of yielding
`false`. -/
theorem claim_C8_counterexample :
    checkout_commit "deadbeef"
        ⟨.fault "log file open failed", .exit 0 ""⟩
      = .error (.other "log file open failed") ∧
      ∀ b : Bool,
        checkout_commit "deadbeef"
            ⟨.fault "log file open failed", .exit 0 ""⟩ ≠ .ok b := by
  decide

/-- C8 amended: `checkout_commit` reports success only when both the
working-tree switch and the submodule sync succeed; the sync failing after
a successful switch yields overall failure, a failed switch yields failure,
and a command failure (non-zero exit, `CalledProcessError`) is never
propagated — only unexpected non-command faults can escape. -/
theorem claim_C8_amended (c : String) (g s : Outcome) :
    (∀ o₁ o₂, g = .exit 0 o₁ → s = .exit 0 o₂ →
        checkout_commit c ⟨g, s⟩ = .ok true) ∧
      (∀ o₁ rc o₂, g = .exit 0 o₁ → s = .exit rc o₂ → rc ≠ 0 →
        checkout_commit c ⟨g, s⟩ = .ok false) ∧
      (∀ rc o₁, g = .exit rc o₁ → rc ≠ 0 →
        checkout_commit c ⟨g, s⟩ = .ok false) ∧
      (∀ rc cm o, checkout_commit c ⟨g, s⟩ ≠
        .error (.calledProcessError rc cm o)) := by
  refine ⟨?_, ?_, ?_, ?_⟩
  · intro o₁ o₂ h1 h2; subst h1; subst h2
    simp [checkout_commit, run_command]
  · intro o₁ rc o₂ h1 h2 hrc; subst h1; subst h2
    simp [checkout_commit, run_command, hrc]
  · intro rc o₁ h1 hrc; subst h1
    simp [checkout_commit, run_command, hrc]
  · intro rc cm o
    unfold checkout_commit run_command
    cases g with
    | fault m => simp
    | exit rc1 o1 =>
        by_cases h1 : rc1 = 0
        · cases s with
          | fault m => simp [h1]
          | exit rc2 o2 => by_cases h2 : rc2 = 0 <;> simp [h1, h2]
        · simp [h1]

theorem claim_C8_witness :
    checkout_commit "c0" ⟨.exit 0 "ok", .exit 1 "sync fail"⟩ = .ok false :=
  (claim_C8_amended "c0" (.exit 0 "ok") (.exit 1 "sync fail")).2.1
    "ok" 1 "sync fail" rfl rfl (by decide)

/-- C9: when the checkout stage fails, `evaluate_commit` returns the
Inconclusive verdict with the primary-build, secondary-build and probe
flags all false and the latency absent. -/
theorem claim_C9 (c : String) (env : EvalEnv)
    (h : (evaluate_commit c env).2.checkout_success = false) :
    (evaluate_commit c env).1 = none ∧
      (evaluate_commit c env).2.slang_build_success = false ∧
      (evaluate_commit c env).2.sgl_build_success = false ∧
      (evaluate_commit c env).2.perf_test_success = false ∧
      (evaluate_commit c env).2.render_time = none := by
  unfold evaluate_commit evaluate_commit_body at *
  split at h <;> rename_i heq <;> (repeat' split at heq) <;>
    (try cases heq) <;> simp_all [initialResults]

theorem claim_C9_witness :
    (evaluate_commit "c0"
        ⟨⟨.exit 1 "x", .exit 0 ""⟩, .exit 0 "", .exit 0 "",
          .exit 0 "renderBlobsToTexture: 0.5s"⟩).1 = none ∧
      (evaluate_commit "c0"
        ⟨⟨.exit 1 "x", .exit 0 ""⟩, .exit 0 "", .exit 0 "",
          .exit 0 "renderBlobsToTexture: 0.5s"⟩).2.slang_build_success
        = false ∧
      (evaluate_commit "c0"
        ⟨⟨.exit 1 "x", .exit 0 ""⟩, .exit 0 "", .exit 0 "",
          .exit 0 "renderBlobsToTexture: 0.5s"⟩).2.sgl_build_success
        = false ∧
      (evaluate_commit "c0"
        ⟨⟨.exit 1 "x", .exit 0 ""⟩, .exit 0 "", .exit 0 "",
          .exit 0 "renderBlobsToTexture: 0.5s"⟩).2.perf_test_success
        = false ∧
      (evaluate_commit "c0"
        ⟨⟨.exit 1 "x", .exit 0 ""⟩, .exit 0 "", .exit 0 "",
          .exit 0 "renderBlobsToTexture: 0.5s"⟩).2.render_time = none :=
  claim_C9 "c0"
    ⟨⟨.exit 1 "x", .exit 0 ""⟩, .exit 0 "", .exit 0 "",
      .exit 0 "renderBlobsToTexture: 0.5s"⟩ (by decide)

/-- C10: the probe pattern requires digits on both sides of a decimal
point: for the output line `renderBlobsToTexture: 2s`, whose marker token
is present and whose process exited zero, `run_perf_test` still returns
`none`, while the same line with a decimal time yields a value. -/
theorem claim_C10 (commit_hash : String) :
    run_perf_test commit_hash (.exit 0 "renderBlobsToTexture: 2s")
        = .ok none ∧
      inStr "renderBlobsToTexture".toList
        "renderBlobsToTexture: 2s".toList = true ∧
      run_perf_test commit_hash (.exit 0 "renderBlobsToTexture: 2.5s") =
        .ok (some (Rat.divInt 5 2)) :=
  ⟨rfl, rfl, rfl⟩

end BisectPerf
